import Mathlib

/-!
# Pruning options, genesis accounts and the bank handler

A shallow embedding of `store/types/pruning.go`,
`x/auth/genaccounts/genesis_account.go` and `x/bank/handler.go`.

Conventions of the embedding:

* a Go `int64` is an `Int` lying in `[-2^63, 2^63)` (`isInt64`); none of the
  operations embedded here can overflow, so the functions are stated over `Int`
  and every theorem that holds for all `Int` holds for all `int64`;
* a Go `uint64` is a `Nat`;
* a function that can panic returns an `Option`, `none` being the panic;
* a Go `error` result is an `Except String Unit`: `.ok ()` is `nil` and
  `.error msg` is the error built by `errors.New(msg)`;
* a Go `string` is a `String` (well-formed UTF-8 text).
-/

namespace Pruning

/-- The range of a Go `int64`. -/
def isInt64 (x : Int) : Prop := -(2 ^ 63) ≤ x ∧ x < 2 ^ 63

instance (x : Int) : Decidable (isInt64 x) := by
  unfold isInt64; exact inferInstance

/-- The struct `PruningOptions` (pruning.go, lines 22-25). -/
structure PruningOptions where
  keepRecent : Int
  keepEvery : Int
  deriving DecidableEq, Repr

/-- The constructor `NewPruningOptions` (pruning.go, lines 27-32): it stores its two
arguments and performs no check. -/
def NewPruningOptions (keepRecent keepEvery : Int) : PruningOptions :=
  { keepRecent := keepRecent, keepEvery := keepEvery }

/-- The getter `KeepRecent` (pruning.go, lines 35-37). -/
def PruningOptions.KeepRecent (po : PruningOptions) : Int := po.keepRecent

/-- The getter `KeepEvery` (pruning.go, lines 40-42). -/
def PruningOptions.KeepEvery (po : PruningOptions) : Int := po.keepEvery

/-- The method `WillFlush` (pruning.go, lines 45-47): `height%po.keepEvery == 0`.
Go's `%` is the truncated remainder (`Int.tmod`) and panics with an integer
division by zero when the divisor is zero; the panic is `none`. -/
def PruningOptions.WillFlush (po : PruningOptions) (height : Int) : Option Bool :=
  if po.keepEvery = 0 then none
  else some (decide (Int.tmod height po.keepEvery = 0))

/-- The default strategy `PruneEverything` (pruning.go, line 52). -/
def PruneEverything : PruningOptions := NewPruningOptions 1 1

/-- The default strategy `PruneNothing` (pruning.go, line 54). -/
def PruneNothing : PruningOptions := NewPruningOptions 0 1

/-- The default strategy `PruneSyncable` (pruning.go, line 57). -/
def PruneSyncable : PruningOptions := NewPruningOptions 10 10

end Pruning

namespace Genaccounts

/-- The operations of `sdk.Coins` that `genesis_account.go` calls. Package `types`
is not among the embedded sources, so the coin type `C` and these three methods are
parameters of the embedding. -/
structure CoinsOps (C : Type) where
  /-- The method `Coins.IsZero`. -/
  IsZero : C → Bool
  /-- The method `Coins.IsAnyGT`: `IsAnyGT a b` is `a.IsAnyGT(b)`. -/
  IsAnyGT : C → C → Bool
  /-- The method `Coins.Sort`. -/
  SortCoins : C → C

/-- The predicate `unicode.IsSpace` of the Go standard library: the code points with
the Unicode White_Space property. -/
def isSpace (c : Char) : Bool :=
  let n := c.toNat
  (9 ≤ n && n ≤ 13) || n = 32 || n = 133 || n = 160 || n = 5760 ||
  (8192 ≤ n && n ≤ 8202) || n = 8232 || n = 8233 || n = 8239 || n = 8287 || n = 12288

/-- The function `strings.TrimSpace` of the Go standard library: the string with all
leading and trailing white space removed. -/
def TrimSpace (s : String) : String :=
  String.mk ((s.data.dropWhile isSpace).reverse.dropWhile isSpace).reverse

/-- The struct `GenesisAccount` (genesis_account.go, lines 14-30). An
`sdk.AccAddress` is a byte slice. -/
structure GenesisAccount (C : Type) where
  Address : List UInt8
  Coins : C
  Sequence : Nat
  AccountNumber : Nat
  OriginalVesting : C
  DelegatedFree : C
  DelegatedVesting : C
  StartTime : Int
  EndTime : Int
  ModuleName : String
  IsMinter : Bool

/-- First error of `Validate` (genesis_account.go, line 36). -/
def errVestingAmount : String := "vesting amount cannot be greater than total amount"

/-- Second error of `Validate` (genesis_account.go, line 39). -/
def errVestingTime : String := "vesting start-time cannot be before end-time"

/-- Third error of `Validate` (genesis_account.go, line 44). -/
def errModuleBlank : String := "module account name cannot be blank"

/-- The method `Validate` (genesis_account.go, lines 33-48). -/
def GenesisAccount.Validate {C : Type} (ops : CoinsOps C) (ga : GenesisAccount C) :
    Except String Unit := do
  if ops.IsZero ga.OriginalVesting = false then
    if ops.IsAnyGT ga.OriginalVesting ga.Coins = true then
      throw errVestingAmount
    if ga.StartTime ≥ ga.EndTime then
      throw errVestingTime
  if ga.ModuleName ≠ "" ∧ TrimSpace ga.ModuleName = "" then
    throw errModuleBlank
  return ()

/-- The struct built by `auth.NewBaseAccount(address, coins, pubKey, accountNumber,
sequence)`. Package `auth` is not among the embedded sources: each of its constructors
is kept uninterpreted, as a record of the arguments it was called with. A `nil` public
key is `none`. -/
structure BaseAccount (C : Type) where
  Address : List UInt8
  Coins : C
  PubKey : Option (List UInt8)
  AccountNumber : Nat
  Sequence : Nat

/-- The call `auth.NewBaseAccount`. -/
def NewBaseAccount {C : Type} (address : List UInt8) (coins : C)
    (pubKey : Option (List UInt8)) (accountNumber sequence : Nat) : BaseAccount C :=
  { Address := address, Coins := coins, PubKey := pubKey,
    AccountNumber := accountNumber, Sequence := sequence }

/-- The struct built by `auth.NewBaseVestingAccount(baseAccount, originalVesting,
delegatedFree, delegatedVesting, endTime)`, kept uninterpreted. -/
structure BaseVestingAccount (C : Type) where
  BaseAccount : BaseAccount C
  OriginalVesting : C
  DelegatedFree : C
  DelegatedVesting : C
  EndTime : Int

/-- The call `auth.NewBaseVestingAccount`. -/
def NewBaseVestingAccount {C : Type} (baseAccount : BaseAccount C)
    (originalVesting delegatedFree delegatedVesting : C) (endTime : Int) :
    BaseVestingAccount C :=
  { BaseAccount := baseAccount, OriginalVesting := originalVesting,
    DelegatedFree := delegatedFree, DelegatedVesting := delegatedVesting,
    EndTime := endTime }

/-- The values of the interface `auth.Account` that `ToAccount` can return, one
constructor for each account constructor it calls. -/
inductive Account (C : Type) where
  /-- The base account `bacc` itself. -/
  | base (bacc : BaseAccount C)
  /-- The result of `auth.NewContinuousVestingAccountRaw(bva, startTime)`. -/
  | continuousVesting (bva : BaseVestingAccount C) (startTime : Int)
  /-- The result of `auth.NewDelayedVestingAccountRaw(bva)`. -/
  | delayedVesting (bva : BaseVestingAccount C)
  /-- The result of `supply.NewModuleMinterAccount(name)`. -/
  | moduleMinter (name : String)
  /-- The result of `supply.NewModuleHolderAccount(name)`. -/
  | moduleHolder (name : String)

/-- The method `ToAccount` (genesis_account.go, lines 112-141); `none` is the panic of
line 128. -/
def GenesisAccount.ToAccount {C : Type} (ops : CoinsOps C) (ga : GenesisAccount C) :
    Option (Account C) :=
  let bacc := NewBaseAccount ga.Address (ops.SortCoins ga.Coins) none ga.AccountNumber ga.Sequence
  if ops.IsZero ga.OriginalVesting = false then
    let baseVestingAcc := NewBaseVestingAccount bacc ga.OriginalVesting ga.DelegatedFree
      ga.DelegatedVesting ga.EndTime
    if ga.StartTime ≠ 0 ∧ ga.EndTime ≠ 0 then
      some (.continuousVesting baseVestingAcc ga.StartTime)
    else if ga.EndTime ≠ 0 then
      some (.delayedVesting baseVestingAcc)
    else
      none
  else if ga.ModuleName ≠ "" then
    if ga.IsMinter = true then
      some (.moduleMinter ga.ModuleName)
    else
      some (.moduleHolder ga.ModuleName)
  else
    some (.base bacc)

/-- A concrete coin type for evaluating the embedding: the amount held of one single
denomination. `IsZero` tests for the zero amount, `IsAnyGT` compares two amounts and a
single coin is always sorted. -/
def singleDenom : CoinsOps Nat :=
  { IsZero := fun a => a == 0, IsAnyGT := fun a b => decide (a > b), SortCoins := fun a => a }

/-- A genesis account with every field empty or zero, over `singleDenom`. -/
def emptyAccount : GenesisAccount Nat :=
  { Address := [], Coins := 0, Sequence := 0, AccountNumber := 0, OriginalVesting := 0,
    DelegatedFree := 0, DelegatedVesting := 0, StartTime := 0, EndTime := 0,
    ModuleName := "", IsMinter := false }

/-- A plain account: address `[1, 2]`, 50 coins, account number 3, sequence 4. -/
def plainAccount : GenesisAccount Nat :=
  { emptyAccount with Address := [1, 2], Coins := 50, AccountNumber := 3, Sequence := 4 }

/-- A vesting account that also names a module: 20 of its 50 coins vest from time 100
to time 200. -/
def vestingAccount : GenesisAccount Nat :=
  { plainAccount with OriginalVesting := 20, StartTime := 100, EndTime := 200,
                      ModuleName := "mint", IsMinter := true }

/-- The account `vestingAccount` without a start time. -/
def delayedAccount : GenesisAccount Nat :=
  { vestingAccount with StartTime := 0 }

/-- A module account that may mint. -/
def minterAccount : GenesisAccount Nat :=
  { plainAccount with ModuleName := "mint", IsMinter := true }

/-- A module account that may not mint. -/
def holderAccount : GenesisAccount Nat :=
  { plainAccount with ModuleName := "gov" }

/-- An account with no vesting coins whose start time is after its end time. -/
def unorderedTimesAccount : GenesisAccount Nat :=
  { plainAccount with StartTime := 9, EndTime := 3 }

/-- An account that vests 70 coins out of 50, from time 9 to time 3: both vesting checks
of `Validate` fail. -/
def overVestedAccount : GenesisAccount Nat :=
  { plainAccount with OriginalVesting := 70, StartTime := 9, EndTime := 3 }

/-- The method `GenesisAccounts.Contains` (genesis_account.go, lines 147-154): the
loop returns true at the first element whose address `Equals` the given one, and false
when the list is exhausted. The method `AccAddress.Equals` belongs to package `types`,
which is not among the embedded sources, so it is the parameter `equals`:
`equals a b` is `a.Equals(b)`. -/
def Contains {C : Type} (equals : List UInt8 → List UInt8 → Bool) :
    List (GenesisAccount C) → List UInt8 → Bool
  | [], _ => false
  | gacc :: rest, acc =>
    if equals gacc.Address acc = true then true else Contains equals rest acc

/-- Byte-wise comparison of two addresses, for evaluating `Contains`. -/
def bytesEqual (a b : List UInt8) : Bool := a == b

/-- A vesting account without an end time: `vestingAccount` with `EndTime` zero. -/
def noEndTimeAccount : GenesisAccount Nat :=
  { vestingAccount with EndTime := 0 }

end Genaccounts

namespace Bank

/-- The events the bank handler builds. Package `types` is not among the embedded
sources, so an event is kept as the expression that builds it. -/
inductive Event where
  /-- The event `sdk.NewEvent(sdk.EventTypeMessage,
  sdk.NewAttribute(sdk.AttributeKeyModule, tags.TxCategory))` (handler.go, lines 42-45
  and 64-67). -/
  | messageModule
  deriving DecidableEq, Repr

/-- The value `sdk.EmptyEvents()`. -/
def EmptyEvents : List Event := []

/-- The part of an `sdk.Context` that the handler itself reads and writes: its events.
What a context reaches by reference (the stores, the gas meter) is the state `S` that the
keeper operations below read and change. -/
structure Context where
  events : List Event
  deriving DecidableEq, Repr

/-- The method `ctx.WithEvents(events)`: the context with its events replaced. -/
def Context.WithEvents (ctx : Context) (events : List Event) : Context :=
  { ctx with events := events }

/-- The method `ctx.Events()`. -/
def Context.Events (ctx : Context) : List Event := ctx.events

/-- The values of `sdk.Error` that reach the handler, each kept as the expression that
builds it. -/
inductive SdkError where
  /-- The error `sdk.ErrUnknownRequest(msg)`. -/
  | ErrUnknownRequest (msg : String)
  /-- The error `types.ErrSendDisabled(codespace)`. -/
  | ErrSendDisabled (codespace : String)
  /-- An error returned by a keeper operation. -/
  | keeperError (description : String)
  deriving DecidableEq, Repr

/-- The values of `sdk.Result` that the handler returns. -/
inductive Result where
  /-- The result `err.Result()` of an error. -/
  | ofError (err : SdkError)
  /-- The result `sdk.Result{Events: events}`. -/
  | ofEvents (events : List Event)
  deriving DecidableEq, Repr

/-- The message `types.MsgSend`, with the fields the handler reads. -/
structure MsgSend (C : Type) where
  FromAddress : List UInt8
  ToAddress : List UInt8
  Amount : C

/-- An input of a `types.MsgMultiSend`. -/
structure Input (C : Type) where
  Address : List UInt8
  Coins : C

/-- An output of a `types.MsgMultiSend`. -/
structure Output (C : Type) where
  Address : List UInt8
  Coins : C

/-- The message `types.MsgMultiSend`, with the fields the handler reads. -/
structure MsgMultiSend (C : Type) where
  Inputs : List (Input C)
  Outputs : List (Output C)

/-- The dynamic type of an `sdk.Msg` as the type switch of `NewHandler` sees it: a
`types.MsgSend`, a `types.MsgMultiSend`, or a value of any other type, which is kept as
the name `goType` that the verb `%T` prints for it. -/
inductive Msg (C : Type) where
  | msgSend (msg : MsgSend C)
  | msgMultiSend (msg : MsgMultiSend C)
  | other (goType : String)

/-- The operations of the interface `Keeper` that the handler calls. The interface is
not among the embedded sources, so its methods are parameters. Every operation may read
and change the state `S`, and returns its Go result with the new state. -/
structure Keeper (C S : Type) where
  /-- The method `k.GetSendEnabled(ctx)`. -/
  GetSendEnabled : Context → S → Bool × S
  /-- The method `k.Codespace()`. -/
  Codespace : S → String × S
  /-- The method `k.SendCoins(ctx, fromAddr, toAddr, amt)`; `none` is a `nil` error. -/
  SendCoins : Context → List UInt8 → List UInt8 → C → S → Option SdkError × S
  /-- The method `k.InputOutputCoins(ctx, inputs, outputs)`; `none` is a `nil` error. -/
  InputOutputCoins : Context → List (Input C) → List (Output C) → S → Option SdkError × S

/-- The function `handleMsgSend` (handler.go, lines 31-49). -/
def handleMsgSend {C S : Type} (ctx : Context) (k : Keeper C S) (msg : MsgSend C) (s : S) :
    Result × S :=
  let (enabled, s1) := k.GetSendEnabled ctx s
  if enabled = false then
    let (codespace, s2) := k.Codespace s1
    (Result.ofError (SdkError.ErrSendDisabled codespace), s2)
  else
    let (err, s2) := k.SendCoins ctx msg.FromAddress msg.ToAddress msg.Amount s1
    match err with
    | some e => (Result.ofError e, s2)
    | none =>
      let ctx2 := ctx.WithEvents [Event.messageModule]
      (Result.ofEvents ctx2.Events, s2)

/-- The function `handleMsgMultiSend` (handler.go, lines 52-71). -/
def handleMsgMultiSend {C S : Type} (ctx : Context) (k : Keeper C S) (msg : MsgMultiSend C)
    (s : S) : Result × S :=
  let (enabled, s1) := k.GetSendEnabled ctx s
  if enabled = false then
    let (codespace, s2) := k.Codespace s1
    (Result.ofError (SdkError.ErrSendDisabled codespace), s2)
  else
    let (err, s2) := k.InputOutputCoins ctx msg.Inputs msg.Outputs s1
    match err with
    | some e => (Result.ofError e, s2)
    | none =>
      let ctx2 := ctx.WithEvents [Event.messageModule]
      (Result.ofEvents ctx2.Events, s2)

/-- The text before the type name in the error message of handler.go, line 24. -/
def unrecognizedMsg : String := "unrecognized bank message type: "

/-- The function `NewHandler` (handler.go, lines 12-28): the handler it returns, applied
to a context, a message and the state. -/
def NewHandler {C S : Type} (k : Keeper C S) (ctx : Context) (msg : Msg C) (s : S) :
    Result × S :=
  let ctx1 := ctx.WithEvents EmptyEvents
  match msg with
  | .msgSend m => handleMsgSend ctx1 k m s
  | .msgMultiSend m => handleMsgMultiSend ctx1 k m s
  | .other goType =>
    let errMsg := unrecognizedMsg ++ goType
    (Result.ofError (SdkError.ErrUnknownRequest errMsg), s)

/-- One invocation of a keeper operation. -/
inductive KeeperCall where
  | GetSendEnabled
  | Codespace
  | SendCoins (fromAddr toAddr : List UInt8) (amt : Nat)
  | InputOutputCoins (inputs outputs : Nat)
  deriving DecidableEq, Repr

/-- A keeper whose state is the list of the operations invoked on it so far: every
operation appends itself to the list. Sending is enabled or not as `enabled` says, the
codespace is `bank`, and the two transfers succeed. -/
def recordingKeeper (enabled : Bool) : Keeper Nat (List KeeperCall) :=
  { GetSendEnabled := fun _ calls => (enabled, calls ++ [KeeperCall.GetSendEnabled]),
    Codespace := fun calls => ("bank", calls ++ [KeeperCall.Codespace]),
    SendCoins := fun _ fromAddr toAddr amt calls =>
      (none, calls ++ [KeeperCall.SendCoins fromAddr toAddr amt]),
    InputOutputCoins := fun _ inputs outputs calls =>
      (none, calls ++ [KeeperCall.InputOutputCoins inputs.length outputs.length]) }

end Bank

namespace Pruning

/-- The truncated remainder vanishes exactly when the divisor divides the dividend. -/
theorem tmod_eq_zero_iff_dvd (a b : Int) : Int.tmod a b = 0 ↔ b ∣ a :=
  ⟨Int.dvd_of_tmod_eq_zero, Int.tmod_eq_zero_of_dvd⟩

/-- Unfolding of `WillFlush` at a non-zero interval. -/
theorem WillFlush_of_ne_zero (po : PruningOptions) (height : Int) (h : po.keepEvery ≠ 0) :
    po.WillFlush height = some (decide (Int.tmod height po.keepEvery = 0)) := by
  simp [PruningOptions.WillFlush, h]

/-- C1: for every `PruningOptions` with `keepEvery >= 1` and every height (negative
heights included), `WillFlush(height)` returns a boolean, and that boolean is true if and
only if there is an integer `q` with `height = q * keepEvery`. -/
theorem C1_WillFlush_iff_multiple (po : PruningOptions) (height : Int)
    (hk : 1 ≤ po.keepEvery) :
    ∃ b : Bool, po.WillFlush height = some b ∧
      (b = true ↔ ∃ q : Int, height = q * po.keepEvery) := by
  have hne : po.keepEvery ≠ 0 := by omega
  refine ⟨decide (Int.tmod height po.keepEvery = 0), WillFlush_of_ne_zero po height hne, ?_⟩
  rw [decide_eq_true_iff, tmod_eq_zero_iff_dvd]
  constructor
  · rintro ⟨q, hq⟩
    exact ⟨q, by rw [hq, mul_comm]⟩
  · rintro ⟨q, hq⟩
    exact ⟨q, by rw [hq, mul_comm]⟩

/-- Witness of C1 at `keepEvery = 3`, `height = -6`. -/
theorem C1_WillFlush_iff_multiple_witness :
    (1 : Int) ≤ (NewPruningOptions 0 3).keepEvery ∧
    ∃ b : Bool, (NewPruningOptions 0 3).WillFlush (-6) = some b ∧
      (b = true ↔ ∃ q : Int, (-6 : Int) = q * (NewPruningOptions 0 3).keepEvery) :=
  ⟨by decide, C1_WillFlush_iff_multiple (NewPruningOptions 0 3) (-6) (by decide)⟩

/-- C2: `WillFlush` fails (integer division by zero) if and only if `keepEvery == 0`;
for every other `keepEvery`, negative values included, it returns a boolean. -/
theorem C2_WillFlush_fails_iff_zero (po : PruningOptions) (height : Int) :
    (po.WillFlush height = none ↔ po.keepEvery = 0) ∧
    ((∃ b : Bool, po.WillFlush height = some b) ↔ po.keepEvery ≠ 0) := by
  by_cases h : po.keepEvery = 0 <;> simp [PruningOptions.WillFlush, h]

/-- Counterexample to C3 as stated: `NewPruningOptions(-1, 0)`, whose arguments are
`int64` values, is returned as it is, with `keepEvery == 0` and `keepRecent == -1`, so the
returned value breaks the invariant `keepEvery >= 1` and `keepRecent >= 0`. -/
theorem C3_counterexample :
    isInt64 (-1) ∧ isInt64 0 ∧
    NewPruningOptions (-1) 0 = { keepRecent := -1, keepEvery := 0 } ∧
    ¬ (1 ≤ (NewPruningOptions (-1) 0).KeepEvery ∧ 0 ≤ (NewPruningOptions (-1) 0).KeepRecent) := by
  decide

/-- C3, amended: `NewPruningOptions` performs no validation. For all `keepRecent` and
`keepEvery` the value it returns satisfies the invariant `keepEvery >= 1` and
`keepRecent >= 0` if and only if its arguments do; `NewPruningOptions(keepRecent, 0)` is
returned with `keepEvery == 0`, and the zero interval only shows when `WillFlush` is
called on it, which fails for every height. -/
theorem C3_NewPruningOptions_no_validation (keepRecent keepEvery height : Int) :
    ((1 ≤ (NewPruningOptions keepRecent keepEvery).KeepEvery ∧
        0 ≤ (NewPruningOptions keepRecent keepEvery).KeepRecent) ↔
      (1 ≤ keepEvery ∧ 0 ≤ keepRecent)) ∧
    (NewPruningOptions keepRecent 0).KeepEvery = 0 ∧
    (NewPruningOptions keepRecent 0).WillFlush height = none := by
  refine ⟨Iff.rfl, rfl, ?_⟩
  simp [PruningOptions.WillFlush, NewPruningOptions]

/-- C4: read back through the getters, `PruneEverything` is `(1, 1)`, `PruneNothing` is
`(0, 1)` and `PruneSyncable` is `(10, 10)`; and for all `r` and `e`,
`NewPruningOptions(r, e).KeepRecent() == r` and `NewPruningOptions(r, e).KeepEvery() == e`. -/
theorem C4_default_strategies :
    (PruneEverything.KeepRecent = 1 ∧ PruneEverything.KeepEvery = 1) ∧
    (PruneNothing.KeepRecent = 0 ∧ PruneNothing.KeepEvery = 1) ∧
    (PruneSyncable.KeepRecent = 10 ∧ PruneSyncable.KeepEvery = 10) ∧
    (∀ r e : Int, (NewPruningOptions r e).KeepRecent = r ∧
      (NewPruningOptions r e).KeepEvery = e) :=
  ⟨⟨rfl, rfl⟩, ⟨rfl, rfl⟩, ⟨rfl, rfl⟩, fun _ _ => ⟨rfl, rfl⟩⟩

/-- Counterexample to C5 as stated: `PruneSyncable.KeepRecent()` is not 100,
`PruneSyncable.KeepEvery()` is not 10000, and `PruneSyncable.WillFlush(10)` is true
although 10 is not a multiple of 10000. -/
theorem C5_counterexample :
    PruneSyncable.KeepRecent ≠ 100 ∧ PruneSyncable.KeepEvery ≠ 10000 ∧
    PruneSyncable.WillFlush 10 = some true ∧ ¬ ((10000 : Int) ∣ 10) := by
  decide

/-- C5, amended: `PruneSyncable` keeps the last 10 states plus every 10th state:
`PruneSyncable.KeepRecent() == 10` and `PruneSyncable.KeepEvery() == 10`, so
`PruneSyncable.WillFlush(height)` returns a boolean that is true exactly at the multiples
of 10. -/
theorem C5_PruneSyncable_every_tenth (height : Int) :
    PruneSyncable.KeepRecent = 10 ∧ PruneSyncable.KeepEvery = 10 ∧
    ∃ b : Bool, PruneSyncable.WillFlush height = some b ∧
      (b = true ↔ ∃ q : Int, height = q * 10) := by
  refine ⟨rfl, rfl, decide (Int.tmod height 10 = 0), ?_, ?_⟩
  · exact WillFlush_of_ne_zero PruneSyncable height (by decide)
  · rw [decide_eq_true_iff, tmod_eq_zero_iff_dvd]
    constructor
    · rintro ⟨q, hq⟩
      exact ⟨q, by rw [hq, mul_comm]⟩
    · rintro ⟨q, hq⟩
      exact ⟨q, by rw [hq, mul_comm]⟩

/-- C6: for every `PruningOptions` with `keepEvery == 1`, whatever its `keepRecent`,
`WillFlush(height)` is true for every height; in particular `PruneEverything` and
`PruneNothing` flush every height. -/
theorem C6_keepEvery_one_always_flushes (po : PruningOptions) (height : Int)
    (hk : po.keepEvery = 1) :
    po.WillFlush height = some true ∧
    PruneEverything.WillFlush height = some true ∧
    PruneNothing.WillFlush height = some true := by
  refine ⟨?_, ?_, ?_⟩
  · simp [PruningOptions.WillFlush, hk]
  · simp [PruningOptions.WillFlush, PruneEverything, NewPruningOptions]
  · simp [PruningOptions.WillFlush, PruneNothing, NewPruningOptions]

/-- Witness of C6 at `keepRecent = 7`, `keepEvery = 1`, `height = -5`. -/
theorem C6_keepEvery_one_always_flushes_witness :
    (NewPruningOptions 7 1).keepEvery = 1 ∧
    (NewPruningOptions 7 1).WillFlush (-5) = some true ∧
    PruneEverything.WillFlush (-5) = some true ∧
    PruneNothing.WillFlush (-5) = some true :=
  ⟨by decide, C6_keepEvery_one_always_flushes (NewPruningOptions 7 1) (-5) (by decide)⟩

/-- C7: for every `PruningOptions` with `keepEvery >= 1`, `WillFlush(0)` is true. -/
theorem C7_WillFlush_zero (po : PruningOptions) (hk : 1 ≤ po.keepEvery) :
    po.WillFlush 0 = some true := by
  have hne : po.keepEvery ≠ 0 := by omega
  simp [PruningOptions.WillFlush, hne]

/-- Witness of C7 at `keepEvery = 10000`. -/
theorem C7_WillFlush_zero_witness :
    (1 : Int) ≤ (NewPruningOptions 100 10000).keepEvery ∧
    (NewPruningOptions 100 10000).WillFlush 0 = some true :=
  ⟨by decide, C7_WillFlush_zero (NewPruningOptions 100 10000) (by decide)⟩

/-- C8: for `PruneSyncable`, among the committed heights 1..25 the heights with
`WillFlush` true are exactly 10 and 20, the heights in the last-10 window at height 25
(`25 - h < KeepRecent()`) are exactly 16..25, and a height is in one or the other exactly
when it is in `{10, 20} ∪ {16..25}`. -/
theorem C8_retained_set_at_25 (h : Int) (h1 : 1 ≤ h) (h25 : h ≤ 25) :
    (PruneSyncable.WillFlush h = some true ↔ (h = 10 ∨ h = 20)) ∧
    (25 - h < PruneSyncable.KeepRecent ↔ (16 ≤ h ∧ h ≤ 25)) ∧
    ((PruneSyncable.WillFlush h = some true ∨ 25 - h < PruneSyncable.KeepRecent) ↔
      ((h = 10 ∨ h = 20) ∨ (16 ≤ h ∧ h ≤ 25))) := by
  interval_cases h <;> decide

/-- Witness of C8 at height 20, retained by the interval and by the window. -/
theorem C8_retained_set_at_25_witness :
    (PruneSyncable.WillFlush 20 = some true ↔ ((20 : Int) = 10 ∨ (20 : Int) = 20)) ∧
    (25 - 20 < PruneSyncable.KeepRecent ↔ ((16 : Int) ≤ 20 ∧ (20 : Int) ≤ 25)) ∧
    ((PruneSyncable.WillFlush 20 = some true ∨ 25 - 20 < PruneSyncable.KeepRecent) ↔
      (((20 : Int) = 10 ∨ (20 : Int) = 20) ∨ ((16 : Int) ≤ 20 ∧ (20 : Int) ≤ 25))) :=
  C8_retained_set_at_25 20 (by decide) (by decide)

end Pruning

namespace Genaccounts

theorem Validate_unfold {C : Type} (ops : CoinsOps C) (ga : GenesisAccount C) :
    ga.Validate ops =
      if ops.IsZero ga.OriginalVesting = false ∧
          ops.IsAnyGT ga.OriginalVesting ga.Coins = true then
        .error errVestingAmount
      else if ops.IsZero ga.OriginalVesting = false ∧ ga.EndTime ≤ ga.StartTime then
        .error errVestingTime
      else if ga.ModuleName ≠ "" ∧ TrimSpace ga.ModuleName = "" then
        .error errModuleBlank
      else
        .ok () := by
  unfold GenesisAccount.Validate
  by_cases h1 : ops.IsZero ga.OriginalVesting = false <;>
  by_cases h2 : ops.IsAnyGT ga.OriginalVesting ga.Coins = true <;>
  by_cases h3 : ga.EndTime ≤ ga.StartTime <;>
  by_cases h4 : (ga.ModuleName ≠ "" ∧ TrimSpace ga.ModuleName = "") <;>
  simp [bind, Except.bind, pure, Except.pure, throw, throwThe, MonadExceptOf.throw,
    h1, h2, h3, h4]

/-- Dropping a prefix of `p`-elements, reversing, and dropping again leaves nothing
exactly when every element satisfies `p`. -/
theorem dropWhile_both_ends_eq_nil_iff {α : Type} (p : α → Bool) (l : List α) :
    ((l.dropWhile p).reverse.dropWhile p).reverse = [] ↔ ∀ x ∈ l, p x = true := by
  rw [List.reverse_eq_nil_iff, List.dropWhile_eq_nil_iff]
  constructor
  · intro h
    rw [← List.dropWhile_eq_nil_iff]
    cases hd : l.dropWhile p with
    | nil => rfl
    | cons a t =>
      exfalso
      have hne : l.dropWhile p ≠ [] := by rw [hd]; simp
      have hhead := List.head_dropWhile_not p l hne
      have hmem : (l.dropWhile p).head hne ∈ (l.dropWhile p).reverse :=
        List.mem_reverse.mpr (List.head_mem hne)
      rw [h _ hmem] at hhead
      exact absurd hhead (by simp)
  · intro h x hx
    have hnil : l.dropWhile p = [] := List.dropWhile_eq_nil_iff.mpr h
    rw [hnil] at hx
    simp at hx

/-- The result of `TrimSpace` is empty exactly when the string holds white space only. -/
theorem TrimSpace_eq_empty_iff (s : String) :
    TrimSpace s = "" ↔ ∀ c ∈ s.data, isSpace c = true := by
  rw [← dropWhile_both_ends_eq_nil_iff isSpace s.data]
  unfold TrimSpace
  constructor
  · intro h
    have := congrArg String.data h
    simpa using this
  · intro h
    rw [h]

/-- The three error messages of `Validate` are pairwise different. -/
theorem errors_distinct :
    errVestingAmount ≠ errVestingTime ∧ errVestingAmount ≠ errModuleBlank ∧
    errVestingTime ≠ errModuleBlank := by
  decide

/-- C9: `Validate` returns `nil` if and only if (`OriginalVesting` is zero, or
`OriginalVesting` is not greater than `Coins` in any denomination and
`StartTime < EndTime`) and `ModuleName` is not a non-empty string of white space only.
The error "vesting amount cannot be greater than total amount" is returned exactly when
`OriginalVesting` is non-zero and greater than `Coins` in some denomination, so it is the
one returned when both vesting checks fail. When `OriginalVesting` is zero the result
does not depend on `StartTime` and `EndTime`, and an empty `ModuleName` passes the
module check. -/
theorem C9_Validate_nil_iff {C : Type} (ops : CoinsOps C) (ga : GenesisAccount C) :
    (ga.Validate ops = .ok () ↔
      ((ops.IsZero ga.OriginalVesting = true ∨
          (ops.IsAnyGT ga.OriginalVesting ga.Coins = false ∧ ga.StartTime < ga.EndTime)) ∧
        ¬ (ga.ModuleName ≠ "" ∧ ∀ c ∈ ga.ModuleName.data, isSpace c = true))) ∧
    (ga.Validate ops = .error errVestingAmount ↔
      (ops.IsZero ga.OriginalVesting = false ∧
        ops.IsAnyGT ga.OriginalVesting ga.Coins = true)) ∧
    (ops.IsZero ga.OriginalVesting = true →
      ∀ startTime endTime : Int,
        ({ ga with StartTime := startTime, EndTime := endTime }).Validate ops =
          ga.Validate ops) ∧
    (ga.ModuleName = "" →
      (ga.Validate ops = .ok () ↔
        (ops.IsZero ga.OriginalVesting = true ∨
          (ops.IsAnyGT ga.OriginalVesting ga.Coins = false ∧
            ga.StartTime < ga.EndTime)))) := by
  obtain ⟨h12, h13, h23⟩ := errors_distinct
  have hneq13 : errModuleBlank ≠ errVestingAmount := fun h => h13 h.symm
  have hneq12 : errVestingTime ≠ errVestingAmount := fun h => h12 h.symm
  refine ⟨?_, ?_, ?_, ?_⟩
  · rw [Validate_unfold, ← TrimSpace_eq_empty_iff]
    by_cases h1 : ops.IsZero ga.OriginalVesting = false <;>
    by_cases h2 : ops.IsAnyGT ga.OriginalVesting ga.Coins = true <;>
    by_cases h3 : ga.EndTime ≤ ga.StartTime <;>
    by_cases h4 : (ga.ModuleName ≠ "" ∧ TrimSpace ga.ModuleName = "") <;>
    (simp [h1, h2, h3, h4]; try omega)
  · rw [Validate_unfold]
    by_cases h1 : ops.IsZero ga.OriginalVesting = false <;>
    by_cases h2 : ops.IsAnyGT ga.OriginalVesting ga.Coins = true <;>
    by_cases h3 : ga.EndTime ≤ ga.StartTime <;>
    by_cases h4 : (ga.ModuleName ≠ "" ∧ TrimSpace ga.ModuleName = "") <;>
    simp [h1, h2, h3, h4, hneq13, hneq12]
  · intro hz startTime endTime
    rw [Validate_unfold, Validate_unfold]
    simp [hz]
  · intro hm
    rw [Validate_unfold]
    by_cases h1 : ops.IsZero ga.OriginalVesting = false <;>
    by_cases h2 : ops.IsAnyGT ga.OriginalVesting ga.Coins = true <;>
    by_cases h3 : ga.EndTime ≤ ga.StartTime <;>
    (simp [h1, h2, h3, hm, TrimSpace]; try omega)

/-- Witness of C9: `Validate` accepts `unorderedTimesAccount`, whose vesting amount is
zero, whose start time is after its end time and whose module name is empty; and it
answers `overVestedAccount`, which fails both vesting checks, with the error about the
vesting amount. -/
theorem C9_Validate_nil_iff_witness :
    unorderedTimesAccount.Validate singleDenom = .ok () ∧
    overVestedAccount.Validate singleDenom = .error errVestingAmount :=
  ⟨(C9_Validate_nil_iff singleDenom unorderedTimesAccount).1.mpr
      ⟨Or.inl rfl, fun h => h.1 rfl⟩,
    (C9_Validate_nil_iff singleDenom overVestedAccount).2.1.mpr ⟨rfl, rfl⟩⟩

/-- C10: `ToAccount` picks the account kind from the fields, vesting before module. If
`OriginalVesting` is non-zero the result is the continuous vesting account started at
`StartTime` when `StartTime != 0` and `EndTime != 0`, and the delayed vesting account
when `StartTime == 0` and `EndTime != 0`, whatever `ModuleName` is. Otherwise, if
`ModuleName` is non-empty, it is the module minter account when `IsMinter` is true and
the module holder account when it is false. Otherwise it is the base account built from
`Address`, the sorted `Coins`, `AccountNumber` and `Sequence`, with no public key; the
vesting accounts are built over that same base account, `OriginalVesting`,
`DelegatedFree`, `DelegatedVesting` and `EndTime`. -/
theorem C10_ToAccount_kinds {C : Type} (ops : CoinsOps C) (ga : GenesisAccount C) :
    (ops.IsZero ga.OriginalVesting = false → ga.StartTime ≠ 0 → ga.EndTime ≠ 0 →
      ga.ToAccount ops = some (.continuousVesting
        { BaseAccount :=
            { Address := ga.Address, Coins := ops.SortCoins ga.Coins, PubKey := none,
              AccountNumber := ga.AccountNumber, Sequence := ga.Sequence },
          OriginalVesting := ga.OriginalVesting, DelegatedFree := ga.DelegatedFree,
          DelegatedVesting := ga.DelegatedVesting, EndTime := ga.EndTime }
        ga.StartTime)) ∧
    (ops.IsZero ga.OriginalVesting = false → ga.StartTime = 0 → ga.EndTime ≠ 0 →
      ga.ToAccount ops = some (.delayedVesting
        { BaseAccount :=
            { Address := ga.Address, Coins := ops.SortCoins ga.Coins, PubKey := none,
              AccountNumber := ga.AccountNumber, Sequence := ga.Sequence },
          OriginalVesting := ga.OriginalVesting, DelegatedFree := ga.DelegatedFree,
          DelegatedVesting := ga.DelegatedVesting, EndTime := ga.EndTime })) ∧
    (ops.IsZero ga.OriginalVesting = true → ga.ModuleName ≠ "" → ga.IsMinter = true →
      ga.ToAccount ops = some (.moduleMinter ga.ModuleName)) ∧
    (ops.IsZero ga.OriginalVesting = true → ga.ModuleName ≠ "" → ga.IsMinter = false →
      ga.ToAccount ops = some (.moduleHolder ga.ModuleName)) ∧
    (ops.IsZero ga.OriginalVesting = true → ga.ModuleName = "" →
      ga.ToAccount ops = some (.base
        { Address := ga.Address, Coins := ops.SortCoins ga.Coins, PubKey := none,
          AccountNumber := ga.AccountNumber, Sequence := ga.Sequence })) := by
  refine ⟨?_, ?_, ?_, ?_, ?_⟩
  · intro hz hs he
    simp [GenesisAccount.ToAccount, NewBaseAccount, NewBaseVestingAccount, hz, hs, he]
  · intro hz hs he
    simp [GenesisAccount.ToAccount, NewBaseAccount, NewBaseVestingAccount, hz, hs, he]
  · intro hz hm hi
    simp [GenesisAccount.ToAccount, hz, hm, hi]
  · intro hz hm hi
    simp [GenesisAccount.ToAccount, hz, hm, hi]
  · intro hz hm
    simp [GenesisAccount.ToAccount, NewBaseAccount, hz, hm]

/-- Witness of C10, one account for each of the five kinds. The vesting accounts name
the module `mint` and are vesting accounts all the same. -/
theorem C10_ToAccount_kinds_witness :
    vestingAccount.ToAccount singleDenom = some (.continuousVesting
      { BaseAccount :=
          { Address := [1, 2], Coins := 50, PubKey := none, AccountNumber := 3,
            Sequence := 4 },
        OriginalVesting := 20, DelegatedFree := 0, DelegatedVesting := 0, EndTime := 200 }
      100) ∧
    delayedAccount.ToAccount singleDenom = some (.delayedVesting
      { BaseAccount :=
          { Address := [1, 2], Coins := 50, PubKey := none, AccountNumber := 3,
            Sequence := 4 },
        OriginalVesting := 20, DelegatedFree := 0, DelegatedVesting := 0,
        EndTime := 200 }) ∧
    minterAccount.ToAccount singleDenom = some (.moduleMinter "mint") ∧
    holderAccount.ToAccount singleDenom = some (.moduleHolder "gov") ∧
    plainAccount.ToAccount singleDenom = some (.base
      { Address := [1, 2], Coins := 50, PubKey := none, AccountNumber := 3,
        Sequence := 4 }) :=
  ⟨(C10_ToAccount_kinds singleDenom vestingAccount).1 rfl (by decide) (by decide),
    (C10_ToAccount_kinds singleDenom delayedAccount).2.1 rfl rfl (by decide),
    (C10_ToAccount_kinds singleDenom minterAccount).2.2.1 rfl (by decide) rfl,
    (C10_ToAccount_kinds singleDenom holderAccount).2.2.2.1 rfl (by decide) rfl,
    (C10_ToAccount_kinds singleDenom plainAccount).2.2.2.2 rfl rfl⟩

end Genaccounts

namespace Genaccounts

/-- The loop of `Contains` is a search through the list of the addresses. -/
theorem Contains_eq_any {C : Type} (equals : List UInt8 → List UInt8 → Bool)
    (gaccs : List (GenesisAccount C)) (acc : List UInt8) :
    Contains equals gaccs acc =
      (gaccs.map (fun g => g.Address)).any (fun a => equals a acc) := by
  induction gaccs with
  | nil => rfl
  | cons g rest ih =>
    by_cases h : equals g.Address acc = true
    · simp [Contains, h]
    · simp [Contains, h, ih]

/-- The result of `Contains` is true exactly when some element passes the test. -/
theorem Contains_eq_true_iff {C : Type} (equals : List UInt8 → List UInt8 → Bool)
    (gaccs : List (GenesisAccount C)) (acc : List UInt8) :
    Contains equals gaccs acc = true ↔ ∃ g ∈ gaccs, equals g.Address acc = true := by
  rw [Contains_eq_any, List.any_eq_true]
  constructor
  · rintro ⟨a, ha, hq⟩
    obtain ⟨g, hg, rfl⟩ := List.mem_map.mp ha
    exact ⟨g, hg, hq⟩
  · rintro ⟨g, hg, hq⟩
    exact ⟨g.Address, List.mem_map.mpr ⟨g, hg, rfl⟩, hq⟩

/-- C11: `Contains(addr)` returns true if and only if at least one element of the list
has an `Address` that `Equals` `addr`, which for the byte-wise comparison is an
`Address` equal to `addr`; it is false for the empty list, it is the same for every
reordering of the list, and it is the same for every list with the same addresses in the
same places, whatever the other fields are. -/
theorem C11_Contains_iff_exists {C : Type} (equals : List UInt8 → List UInt8 → Bool)
    (gaccs : List (GenesisAccount C)) (acc : List UInt8) :
    (Contains equals gaccs acc = true ↔ ∃ g ∈ gaccs, equals g.Address acc = true) ∧
    (Contains bytesEqual gaccs acc = true ↔ ∃ g ∈ gaccs, g.Address = acc) ∧
    Contains equals ([] : List (GenesisAccount C)) acc = false ∧
    (∀ gaccs2 : List (GenesisAccount C), gaccs.Perm gaccs2 →
      Contains equals gaccs2 acc = Contains equals gaccs acc) ∧
    (∀ gaccs2 : List (GenesisAccount C),
      gaccs2.map (fun g => g.Address) = gaccs.map (fun g => g.Address) →
      Contains equals gaccs2 acc = Contains equals gaccs acc) := by
  refine ⟨Contains_eq_true_iff equals gaccs acc, ?_, rfl, ?_, ?_⟩
  · rw [Contains_eq_true_iff]
    simp [bytesEqual]
  · intro gaccs2 hperm
    rw [Bool.eq_iff_iff, Contains_eq_true_iff, Contains_eq_true_iff]
    constructor
    · rintro ⟨g, hg, hq⟩
      exact ⟨g, hperm.symm.subset hg, hq⟩
    · rintro ⟨g, hg, hq⟩
      exact ⟨g, hperm.subset hg, hq⟩
  · intro gaccs2 hmap
    rw [Contains_eq_any, Contains_eq_any, hmap]

/-- Witness of C11: a list of three accounts contains the address `[1, 2]` of its second
element and not the address `[9]`; the list reversed, and the list with `minterAccount`
(same address, other fields) in the place of `plainAccount`, give the same answers. -/
theorem C11_Contains_iff_exists_witness :
    Contains bytesEqual [emptyAccount, plainAccount, { emptyAccount with Address := [7] }]
      [1, 2] = true ∧
    Contains bytesEqual [emptyAccount, plainAccount, { emptyAccount with Address := [7] }]
      [9] = false ∧
    Contains bytesEqual [{ emptyAccount with Address := [7] }, plainAccount, emptyAccount]
      [1, 2] = true ∧
    Contains bytesEqual [emptyAccount, minterAccount, { emptyAccount with Address := [7] }]
      [1, 2] = true :=
  ⟨(C11_Contains_iff_exists bytesEqual
      [emptyAccount, plainAccount, { emptyAccount with Address := [7] }] [1, 2]).2.1.mpr
      ⟨plainAccount, by simp, rfl⟩,
    by decide,
    ((C11_Contains_iff_exists bytesEqual
      [emptyAccount, plainAccount, { emptyAccount with Address := [7] }] [1, 2]).2.2.2.1
      [{ emptyAccount with Address := [7] }, plainAccount, emptyAccount]
      (List.reverse_perm _).symm).trans (by decide),
    ((C11_Contains_iff_exists bytesEqual
      [emptyAccount, plainAccount, { emptyAccount with Address := [7] }] [1, 2]).2.2.2.2
      [emptyAccount, minterAccount, { emptyAccount with Address := [7] }]
      rfl).trans (by decide)⟩

end Genaccounts

namespace Genaccounts

/-- C13: `ToAccount` panics if and only if `OriginalVesting` is non-zero and
`EndTime == 0`; for every other `GenesisAccount` it returns an account, and so it does for
every one with zero `OriginalVesting`, whatever its `StartTime` and `EndTime`. -/
theorem C13_ToAccount_panics_iff {C : Type} (ops : CoinsOps C) (ga : GenesisAccount C) :
    (ga.ToAccount ops = none ↔
      (ops.IsZero ga.OriginalVesting = false ∧ ga.EndTime = 0)) ∧
    ((∃ account, ga.ToAccount ops = some account) ↔
      ¬ (ops.IsZero ga.OriginalVesting = false ∧ ga.EndTime = 0)) ∧
    (ops.IsZero ga.OriginalVesting = true →
      ∀ startTime endTime : Int, ∃ account,
        ({ ga with StartTime := startTime, EndTime := endTime }).ToAccount ops =
          some account) := by
  refine ⟨?_, ?_, ?_⟩
  · unfold GenesisAccount.ToAccount
    by_cases hz : ops.IsZero ga.OriginalVesting = false <;>
    by_cases hs : ga.StartTime = 0 <;>
    by_cases he : ga.EndTime = 0 <;>
    by_cases hm : ga.ModuleName = "" <;>
    by_cases hi : ga.IsMinter = true <;>
    simp [hz, hs, he, hm, hi]
  · unfold GenesisAccount.ToAccount
    by_cases hz : ops.IsZero ga.OriginalVesting = false <;>
    by_cases hs : ga.StartTime = 0 <;>
    by_cases he : ga.EndTime = 0 <;>
    by_cases hm : ga.ModuleName = "" <;>
    by_cases hi : ga.IsMinter = true <;>
    simp [hz, hs, he, hm, hi]
  · intro hz startTime endTime
    unfold GenesisAccount.ToAccount
    by_cases hm : ga.ModuleName = "" <;>
    by_cases hi : ga.IsMinter = true <;>
    simp [hz, hm, hi]

/-- Witness of C13: `ToAccount` panics on `noEndTimeAccount`, which vests 20 coins and has
no end time, and returns an account for `unorderedTimesAccount`, which has no vesting
coins, and for that account with both times set to zero. -/
theorem C13_ToAccount_panics_iff_witness :
    noEndTimeAccount.ToAccount singleDenom = none ∧
    (∃ account, unorderedTimesAccount.ToAccount singleDenom = some account) ∧
    (∃ account,
      ({ unorderedTimesAccount with StartTime := 0, EndTime := 0 }).ToAccount singleDenom =
        some account) :=
  ⟨(C13_ToAccount_panics_iff singleDenom noEndTimeAccount).1.mpr ⟨rfl, rfl⟩,
    (C13_ToAccount_panics_iff singleDenom unorderedTimesAccount).2.1.mpr
      (fun h => absurd h.1 (by decide)),
    (C13_ToAccount_panics_iff singleDenom unorderedTimesAccount).2.2 rfl 0 0⟩

end Genaccounts

namespace Bank

/-- C12: the handler of `NewHandler` routes a `MsgSend` to `handleMsgSend` and a
`MsgMultiSend` to `handleMsgMultiSend`, each with the events of the context emptied. For
a message of any other type it returns the result of the unknown-request error whose
message is "unrecognized bank message type: " followed by the name of the type; it
invokes no keeper operation: the state is returned unchanged, the answer is the same for
every keeper, and a keeper that records its invocations has recorded none. -/
theorem C12_NewHandler_dispatch {C S : Type} (k : Keeper C S) (ctx : Context) (s : S) :
    (∀ msg : MsgSend C,
      NewHandler k ctx (.msgSend msg) s =
        handleMsgSend (ctx.WithEvents EmptyEvents) k msg s) ∧
    (∀ msg : MsgMultiSend C,
      NewHandler k ctx (.msgMultiSend msg) s =
        handleMsgMultiSend (ctx.WithEvents EmptyEvents) k msg s) ∧
    (∀ goType : String,
      NewHandler k ctx (.other goType) s =
        (Result.ofError
          (SdkError.ErrUnknownRequest ("unrecognized bank message type: " ++ goType)), s)) ∧
    (∀ (k2 : Keeper C S) (goType : String),
      NewHandler k2 ctx (.other goType) s = NewHandler k ctx (.other goType) s) ∧
    (∀ (enabled : Bool) (calls : List KeeperCall) (goType : String),
      (NewHandler (recordingKeeper enabled) ctx (.other goType) calls).2 = calls) :=
  ⟨fun _ => rfl, fun _ => rfl, fun _ => rfl, fun _ _ => rfl, fun _ _ _ => rfl⟩

/-- Witness of C12 on the recording keeper, starting from no invocation: a `MsgSend`
with sending enabled goes through `GetSendEnabled` and `SendCoins`, a `MsgMultiSend` with
sending disabled goes through `GetSendEnabled` and `Codespace`, and a message of the
type `gov.MsgVote` gets the unknown-request result with no invocation recorded. -/
theorem C12_NewHandler_dispatch_witness :
    NewHandler (recordingKeeper true) { events := [Event.messageModule] }
      (.msgSend { FromAddress := [1], ToAddress := [2], Amount := 5 }) [] =
      (Result.ofEvents [Event.messageModule],
        [KeeperCall.GetSendEnabled, KeeperCall.SendCoins [1] [2] 5]) ∧
    NewHandler (recordingKeeper false) { events := [Event.messageModule] }
      (.msgMultiSend { Inputs := [], Outputs := [] }) [] =
      (Result.ofError (SdkError.ErrSendDisabled "bank"),
        [KeeperCall.GetSendEnabled, KeeperCall.Codespace]) ∧
    NewHandler (recordingKeeper true) { events := [Event.messageModule] }
      (.other "gov.MsgVote") [] =
      (Result.ofError
        (SdkError.ErrUnknownRequest "unrecognized bank message type: gov.MsgVote"), []) :=
  ⟨((C12_NewHandler_dispatch (recordingKeeper true) { events := [Event.messageModule] }
      []).1 { FromAddress := [1], ToAddress := [2], Amount := 5 }).trans (by decide),
    ((C12_NewHandler_dispatch (recordingKeeper false) { events := [Event.messageModule] }
      []).2.1 { Inputs := [], Outputs := [] }).trans (by decide),
    ((C12_NewHandler_dispatch (recordingKeeper true) { events := [Event.messageModule] }
      []).2.2.1 "gov.MsgVote").trans (by decide)⟩

end Bank
